import Mathlib

/-!
Verification of the yitam-mcp streamable-HTTP transport layer.

The development shallowly embeds the transport and session code of the
repository:

* the JSON-RPC message classifiers and the `StreamableHttpTransport`
  defined inline in `src/core/server/yitam-tools.ts` (namespace `YT`),
* the `SessionManager` of `src/core/transport/session-manager.ts`
  (namespace `SM`),
* the alternative `StreamableHttpTransport` of
  `src/core/transport/http-transport.ts`, which delegates to the
  `SessionManager` (namespace `HT`),
* the standalone test server (namespace `TS`).

JavaScript timestamps (`Date.now()`) are embedded as `Int` and passed
explicitly as a `now` argument to every operation that reads the clock.
HTTP response objects reachable from several owners are embedded as a
`World`: a finite map from stream handles to an `ended` flag, threaded
through the operations that may call `res.end()`.
-/

/-- An id value of a JSON-RPC envelope: a string or a number. -/
inductive RpcId where
  | str (s : String)
  | num (n : Int)
deriving DecidableEq, Repr

/-- `params` of an inbound message, with the two fields the handlers read:
`params.name` and the presence of a truthy `params.arguments.query`. -/
structure RpcParams where
  name : Option String
  hasQuery : Bool
deriving DecidableEq, Repr

/-- A decoded JSON-RPC envelope as the duck-typed handlers see it.
`idField = none` means no `id` key; `some none` means `id: null`;
`some (some i)` means a string or number id. -/
structure RpcMsg where
  method : Option String
  idField : Option (Option RpcId)
  hasResult : Bool
  hasError : Bool
  params : Option RpcParams
deriving DecidableEq, Repr

/-- The id a reply echoes: `message.id` (absent and null both serialize
as a missing/null id). -/
def RpcMsg.rpcIdOf (m : RpcMsg) : Option RpcId :=
  match m.idField with
  | some (some i) => some i
  | _ => none

/-- `yitam-tools.ts:71` and `http-transport.ts:37`:
has `method`, has `id`, and the id is neither null nor undefined. -/
def isJsonRpcRequest (m : RpcMsg) : Bool :=
  m.method.isSome && (match m.idField with
    | some (some _) => true
    | _ => false)

/-- `yitam-tools.ts:74` and `http-transport.ts:40`:
has `method`, and `id` is absent, null or undefined. -/
def isJsonRpcNotification (m : RpcMsg) : Bool :=
  m.method.isSome && (match m.idField with
    | some (some _) => false
    | _ => true)

/-- `yitam-tools.ts:77`: has `result` or has `error` (the guard does not
look at `method`). -/
def isJsonRpcResponse (m : RpcMsg) : Bool :=
  m.hasResult || m.hasError

/-- Modelled from the spec (section 3, message envelope): a well-formed
envelope is exactly one of the three shapes there.  A Request has `method`
and a non-null id and no `result`/`error` member; a Notification has
`method`, an absent or null id, and no `result`/`error` member; a Response
has no `method`, has an `id` member, and exactly one of `result`/`error`. -/
def SpecWellFormed (m : RpcMsg) : Bool :=
  (m.method.isSome && !m.hasResult && !m.hasError)
  || (m.method.isNone && m.idField.isSome && (m.hasResult != m.hasError))

/-- JSON-RPC reserved error codes (spec section 3 and the SDK constants). -/
def parseErrorCode : Int := -32700
def invalidRequestCode : Int := -32600
def methodNotFoundCode : Int := -32601
def internalErrorCode : Int := -32603

/-- The result payloads the built-in method handlers produce.  The content
of the tool output comes from the external search collaborator and is out
of scope, so it is a single opaque constructor. -/
inductive RpcResult where
  | toolsList
  | callToolOutput
  | initResult
deriving DecidableEq, Repr

/-- The payload of an outbound reply: a `result` or an `error` object. -/
inductive RpcPayload where
  | ok (r : RpcResult)
  | err (code : Int) (msg : String)
deriving DecidableEq, Repr

/-- An outbound JSON-RPC reply `{jsonrpc, id, result|error}`. -/
structure RpcReply where
  rid : Option RpcId
  payload : RpcPayload
deriving DecidableEq, Repr

/-- A parsed POST body: a bare object or an array of envelopes. -/
inductive JsBody where
  | single (m : RpcMsg)
  | arr (ms : List RpcMsg)
deriving DecidableEq, Repr

/-- `Array.isArray` on a parsed body. -/
def jsIsArray : JsBody → Bool
  | .single _ => false
  | .arr _ => true

/-- Iterating a body after `Array.isArray(m) ? m : [m]` normalization. -/
def jsElems : JsBody → List RpcMsg
  | .single m => [m]
  | .arr ms => ms

/-! ### String helpers mirroring the JavaScript string methods used. -/

/-- Character-list version of `String.startsWith`-style matching:
`leadsWith p l` holds when `p` is an initial segment of `l`. -/
def leadsWith : List Char → List Char → Bool
  | [], _ => true
  | _ :: _, [] => false
  | c :: cs, d :: ds => c = d && leadsWith cs ds

/-- Whether `p` occurs inside `l` (used for JS `String.includes`). -/
def occursIn (p : List Char) : List Char → Bool
  | [] => leadsWith p []
  | c :: cs => leadsWith p (c :: cs) || occursIn p cs

/-- JS `hay.includes(sub)`. -/
def strIncludes (hay sub : String) : Bool := occursIn sub.data hay.data

/-- JS `s.startsWith(p)`. -/
def strStarts (s p : String) : Bool := leadsWith p.data s.data

/-- JS `s.endsWith(p)`. -/
def strEnds (s p : String) : Bool := leadsWith p.data.reverse s.data.reverse

/-- JS `s.slice(0, -1)`: drop the final character. -/
def strDropLast (s : String) : String := String.mk s.data.dropLast

/-! ### Association lists standing for the JS `Map`s. -/

/-- `map.get(k)`. -/
def alookup {α : Type} (l : List (String × α)) (k : String) : Option α :=
  match l with
  | [] => none
  | (k2, v) :: t => if k2 = k then some v else alookup t k

/-- `map.delete(k)` (the resulting map; the deletion result is
`(alookup l k).isSome`). -/
def aerase {α : Type} (l : List (String × α)) (k : String) : List (String × α) :=
  l.filter fun p => decide (p.1 ≠ k)

/-- `map.set(k, v)`: replace in place, or append when the key is new. -/
def aset {α : Type} (l : List (String × α)) (k : String) (v : α) : List (String × α) :=
  match l with
  | [] => [(k, v)]
  | (k2, v2) :: t => if k2 = k then (k, v) :: t else (k2, v2) :: aset t k v

/-! ### The world of HTTP response stream objects. -/

/-- All SSE sinks ever handed out, by handle; `true` means `res.end()`
has been called on the sink. -/
structure World where
  streams : List (String × Bool)
deriving DecidableEq, Repr

/-- `res.end()` on one handle (the `!res.destroyed` guard in the sources
only avoids double-ending; the resulting state is the same). -/
def endStream (w : World) (h : String) : World :=
  ⟨w.streams.map fun p => if p.1 = h then (p.1, true) else p⟩

/-- End every stream in a list of handles. -/
def endStreams (w : World) (hs : List String) : World :=
  hs.foldl endStream w

/-- A session record; both transports use this shape
(`yitam-tools.ts:48`, `session-manager.ts:8`).  `requestStreams` holds the
handles of the SSE sinks registered under the session. -/
structure SessionRec where
  sid : String
  createdAt : Int
  lastAccessed : Int
  requestStreams : List String
deriving DecidableEq, Repr

namespace SM

/-- State of a `SessionManager` (`session-manager.ts:20`). -/
structure State where
  timeoutMs : Int
  sessions : List (String × SessionRec)
deriving DecidableEq, Repr

/-- `createSession` (`session-manager.ts:37`); the random id is passed in
as `freshId` since randomness is external. -/
def createSession (st : State) (freshId : String) (now : Int) : SessionRec × State :=
  let s : SessionRec := ⟨freshId, now, now, []⟩
  (s, { st with sessions := aset st.sessions freshId s })

/-- `getSession` (`session-manager.ts:56`): a plain lookup that updates
`lastAccessed` on hit; it performs no expiry check of its own. -/
def getSession (st : State) (sid : String) (now : Int) : Option SessionRec × State :=
  match alookup st.sessions sid with
  | none => (none, st)
  | some s =>
      let s2 := { s with lastAccessed := now }
      (some s2, { st with sessions := aset st.sessions sid s2 })

/-- `deleteSession` (`session-manager.ts:70`): the body is exactly
`return this.sessions.delete(sessionId)`; it touches no stream, so the
world passes through unchanged. -/
def deleteSession (st : State) (w : World) (sid : String) :
    Bool × State × World :=
  ((alookup st.sessions sid).isSome,
   { st with sessions := aerase st.sessions sid },
   w)

/-- `isSessionValid` (`session-manager.ts:77`): raw map lookup (no touch);
an expired record is deleted as a side effect and reported invalid. -/
def isSessionValid (st : State) (sid : String) (now : Int) : Bool × State :=
  match alookup st.sessions sid with
  | none => (false, st)
  | some s =>
      if now - s.lastAccessed > st.timeoutMs then
        (false, { st with sessions := aerase st.sessions sid })
      else
        (true, st)

/-- `cleanupExpiredSessions` (`session-manager.ts:98`): end the streams of
every expired session, then remove the records. -/
def cleanupExpiredSessions (st : State) (w : World) (now : Int) : State × World :=
  let expired := st.sessions.filter fun p => decide (now - p.2.lastAccessed > st.timeoutMs)
  let w2 := expired.foldl (fun acc p => endStreams acc p.2.requestStreams) w
  ({ st with sessions := st.sessions.filter fun p => decide (¬ (now - p.2.lastAccessed > st.timeoutMs)) }, w2)

end SM

/-- The body of an HTTP reply, by shape. -/
inductive ReplyBody where
  | empty
  | jsonSingle (r : RpcReply)
  | jsonBatch (rs : List RpcReply)
  | rpcError (code : Int) (msg : String)
  | plainText (s : String)
  | errJson (msg : String)
  | acceptedJson (sid : String)
  | statusJson (msg : String)
  | sseStream
deriving DecidableEq, Repr

namespace YT

/-- State of the transport defined inline in `yitam-tools.ts:199`:
its own session map, the transport-global SSE event counter, and a
counter standing in for the external randomness of `generateSecureId`. -/
structure State where
  sessions : List (String × SessionRec)
  sseEventCounter : Nat
  nextFresh : Nat
deriving DecidableEq, Repr

/-- The next id `generateSecureId` hands out (randomness is external, so
the embedding draws deterministic fresh names). -/
def freshId (st : State) : String := "id" ++ toString st.nextFresh

/-- `callToolHandler` (`yitam-tools.ts:938`): look the tool up by name
(`query_domain_knowledge` is the only tool), require `args.query`, then
run the handler.  The handler itself converts search failures into a
`success:false` payload, so it returns a result either way; the thrown
errors here are the lookup and missing-query ones. -/
def callToolHandler (p : Option RpcParams) : Except String RpcResult :=
  match p.bind RpcParams.name with
  | some "query_domain_knowledge" =>
      if (p.map RpcParams.hasQuery).getD false then .ok .callToolOutput
      else .error "Query parameter is required"
  | some n => .error ("Unknown tool: " ++ n)
  | none => .error "Unknown tool: undefined"

/-- `invokeServerMethod` (`yitam-tools.ts:779`): notifications produce no
reply; requests are dispatched on `method`, unknown methods produce a
MethodNotFound error, and a thrown error becomes an InternalError reply. -/
def invokeServerMethod (m : RpcMsg) : Option RpcReply :=
  if isJsonRpcNotification m then none
  else
    let rid := m.rpcIdOf
    match m.method.getD "undefined" with
    | "listTools" => some ⟨rid, .ok .toolsList⟩
    | "callTool" =>
        match callToolHandler m.params with
        | .ok r => some ⟨rid, .ok r⟩
        | .error e => some ⟨rid, .err internalErrorCode e⟩
    | "initialize" => some ⟨rid, .ok .initResult⟩
    | other => some ⟨rid, .err methodNotFoundCode ("Method not found: " ++ other)⟩

/-- `processMessageWithServer` (`yitam-tools.ts:730`): requests and
notifications are dispatched; inbound responses are only logged; anything
else falls through and produces nothing. -/
def processMessageWithServer (m : RpcMsg) : Option RpcReply :=
  if isJsonRpcRequest m || isJsonRpcNotification m then invokeServerMethod m
  else none

/-- The observable state of one POST-scoped SSE reply stream
(`yitam-tools.ts:476`): the expected request ids still pending, the SSE
events written so far (keyed by the event counter value used), whether
`res.end()` has run, whether the response listener is subscribed, and
whether the stream is still registered in `session.requestStreams`. -/
structure SseRun where
  streamId : String
  pendingIds : List RpcId
  events : List (Nat × RpcReply)
  closed : Bool
  listenerOn : Bool
  registered : Bool
deriving DecidableEq, Repr

/-- An `SseRun` together with the transport-global `sseEventCounter`. -/
structure SseCtx where
  run : SseRun
  counter : Nat
deriving DecidableEq, Repr

/-- The body of `responseListener` (`yitam-tools.ts:511`): on a response
for this session whose id is still expected, bump the counter, write one
SSE event, drop the id, and when no id is left, end the stream,
unsubscribe and deregister. -/
def deliverResponse (sessionId : String) (ctx : SseCtx) (targetSession : String)
    (resp : RpcReply) : SseCtx :=
  match resp.rid with
  | some i =>
      if targetSession == sessionId && ctx.run.pendingIds.contains i then
        let c2 := ctx.counter + 1
        let pend2 := ctx.run.pendingIds.erase i
        if pend2.isEmpty then
          ⟨{ ctx.run with
              pendingIds := pend2
              events := ctx.run.events ++ [(c2, resp)]
              closed := true
              listenerOn := false
              registered := false }, c2⟩
        else
          ⟨{ ctx.run with
              pendingIds := pend2
              events := ctx.run.events ++ [(c2, resp)] }, c2⟩
      else ctx
  | none => ctx

/-- `this.emit('response', …)`: the event reaches the listener only when
it is currently subscribed; otherwise it is dropped (EventEmitter does
not queue events for listeners added later). -/
def emitResponse (sessionId : String) (ctx : SseCtx) (targetSession : String)
    (resp : RpcReply) : SseCtx :=
  if ctx.run.listenerOn then deliverResponse sessionId ctx targetSession resp else ctx

/-- The expected request ids of a batch, with `Set` insertion semantics
(`yitam-tools.ts:498`). -/
def requestIdsOf (msgs : List RpcMsg) : List RpcId :=
  msgs.foldl (fun acc m =>
    if isJsonRpcRequest m then
      match m.rpcIdOf with
      | some i => if acc.contains i then acc else acc ++ [i]
      | none => acc
    else acc) []

/-- The outcome of one POST exchange. -/
structure PostOut where
  status : Nat
  body : ReplyBody
  sseRun : Option SseRun
  state : State
deriving DecidableEq, Repr

/-- `handlePostWithSSE` (`yitam-tools.ts:476`), in source order: write the
SSE headers, register a fresh stream under the session, collect the
expected request ids, dispatch every envelope (each produced response is
emitted on the transport at that moment), only then subscribe the
response listener, and finally end the stream immediately when no request
id was tracked. -/
def handlePostWithSSE (st : State) (session : SessionRec)
    (msgs : List RpcMsg) : PostOut :=
  let streamId := "stream-" ++ freshId st
  let session1 := { session with requestStreams := session.requestStreams ++ [streamId] }
  let st1 : State := { st with sessions := aset st.sessions session.sid session1,
                               nextFresh := st.nextFresh + 1 }
  let run0 : SseRun := ⟨streamId, requestIdsOf msgs, [], false, false, true⟩
  let ctx0 : SseCtx := ⟨run0, st1.sseEventCounter⟩
  let ctx1 := msgs.foldl (fun ctx m =>
      match processMessageWithServer m with
      | some resp => emitResponse session.sid ctx session.sid resp
      | none => ctx) ctx0
  let ctx2 : SseCtx := ⟨{ ctx1.run with listenerOn := true }, ctx1.counter⟩
  let run3 := if ctx2.run.pendingIds.isEmpty then { ctx2.run with closed := true } else ctx2.run
  ⟨200, .sseStream, some run3, { st1 with sseEventCounter := ctx2.counter }⟩

/-- `handlePostWithJson` (`yitam-tools.ts:556`): with no request in the
batch reply 202; otherwise collect the responses and unwrap to a bare
object only when there is exactly one response and `messages` is not an
array — `messages` being the argument this function receives. -/
def handlePostWithJson (st : State) (messages : JsBody) : PostOut :=
  let elems := jsElems messages
  if (requestIdsOf elems).isEmpty then
    ⟨202, .empty, none, st⟩
  else
    let responses := elems.filterMap processMessageWithServer
    match responses, jsIsArray messages with
    | [r], false => ⟨200, .jsonSingle r, none, st⟩
    | rs, _ => ⟨200, .jsonBatch rs, none, st⟩

/-- `handlePostRequest` (`yitam-tools.ts:345`), in source order: Accept
check (406), parse check (400 ParseError), normalization, the
session-required check (400 InvalidRequest), the
only-notifications-or-responses fast path (202, empty body), session
creation on `initialize`, the session touch, and the Accept-based branch
into `handlePostWithSSE` (which throws, caught as 500, without a session)
or `handlePostWithJson`, the latter called on the already-normalized
array. -/
def handlePost (now : Int) (st : State) (session : Option SessionRec)
    (accept : String) (body : Option JsBody) : PostOut × Option String :=
  if !(strIncludes accept "application/json" || strIncludes accept "text/event-stream") then
    (⟨406, .plainText "Not Acceptable", none, st⟩, none)
  else
    match body with
    | none => (⟨400, .rpcError parseErrorCode "Parse error", none, st⟩, none)
    | some b =>
      let msgs := jsElems b
      let isInitReq := msgs.any fun m => isJsonRpcRequest m && m.method == some "initialize"
      let hasAnyReq := msgs.any isJsonRpcRequest
      if !isInitReq && hasAnyReq && session.isNone then
        (⟨400, .rpcError invalidRequestCode "Session required for non-initialize requests",
          none, st⟩, none)
      else if msgs.all (fun m => isJsonRpcNotification m || isJsonRpcResponse m) then
        (⟨202, .empty, none, st⟩, none)
      else
        let created : Option SessionRec × State × Option String :=
          if isInitReq then
            let s : SessionRec := ⟨freshId st, now, now, []⟩
            (some s, { st with sessions := aset st.sessions s.sid s,
                               nextFresh := st.nextFresh + 1 }, some s.sid)
          else (session, st, none)
        let touched : Option SessionRec × State :=
          match created.1 with
          | some s =>
              let s2 := { s with lastAccessed := now }
              (some s2, { created.2.1 with
                          sessions := aset created.2.1.sessions s.sid s2 })
          | none => (none, created.2.1)
        let out :=
          if strIncludes accept "text/event-stream" then
            match touched.1 with
            | some s => handlePostWithSSE touched.2 s msgs
            | none => ⟨500, .rpcError internalErrorCode "Server or session not available",
                       none, touched.2⟩
          else
            handlePostWithJson touched.2 (.arr msgs)
        (out, created.2.2)

/-- The outcome of a DELETE exchange. -/
structure DelOut where
  status : Nat
  body : ReplyBody
  state : State
  world : World
deriving DecidableEq, Repr

/-- `handleDeleteRequest` (`yitam-tools.ts:693`): no id header is 400; a
known session has all its registered streams ended, then the record is
removed (204); an unknown id is 404. -/
def handleDelete (st : State) (w : World) (sessionId : Option String) : DelOut :=
  match sessionId with
  | none => ⟨400, .plainText "Mcp-Session-Id header is required for DELETE", st, w⟩
  | some sid =>
      match alookup st.sessions sid with
      | some s =>
          ⟨204, .empty, { st with sessions := aerase st.sessions sid },
           endStreams w s.requestStreams⟩
      | none => ⟨404, .plainText "Session not found", st, w⟩

/-- `handleGetRequest` (`yitam-tools.ts:622`): Accept must include
`text/event-stream` (406), a session is required (401); otherwise the
session is touched, a fresh notify stream is registered under it, and the
initial connected event consumes one event-counter value. -/
def handleGet (now : Int) (st : State) (session : Option SessionRec)
    (accept : String) : Nat × ReplyBody × State :=
  if !(strIncludes accept "text/event-stream") then
    (406, .plainText "Not Acceptable", st)
  else
    match session with
    | none => (401, .plainText "Unauthorized", st)
    | some s =>
        let streamId := "notify-" ++ freshId st
        let s2 := { s with lastAccessed := now,
                           requestStreams := s.requestStreams ++ [streamId] }
        (200, .sseStream,
         { st with sessions := aset st.sessions s.sid s2,
                   sseEventCounter := st.sseEventCounter + 1,
                   nextFresh := st.nextFresh + 1 })

/-- `validateOrigin` (`yitam-tools.ts:878`): an empty allow-list allows
everything; a present Origin must equal an entry or match a literal `*`
entry; a missing Origin is always allowed. -/
def validateOrigin (allowedOrigins : List String) (origin : Option String) : Bool :=
  if allowedOrigins.length = 0 then true
  else
    match origin with
    | some o => allowedOrigins.any fun allowed => allowed == "*" || o == allowed
    | none => true

/-- One inbound HTTP exchange, as the transport reads it. -/
structure HttpReq where
  path : String
  httpMethod : String
  origin : Option String
  sessionId : Option String
  accept : String
  body : Option JsBody
deriving DecidableEq, Repr

/-- The outcome of one exchange through `handleRequest`. -/
structure Out where
  status : Nat
  body : ReplyBody
  sseRun : Option SseRun
  sessionHeader : Option String
  state : State
  world : World
deriving DecidableEq, Repr

/-- `handleRequest` (`yitam-tools.ts:300`): endpoint check (404), origin
check (403), session lookup by the `mcp-session-id` header (a plain map
get, with no validity check), then routing on the verb; verbs other than
POST, GET and DELETE get 405. -/
def handleRequest (allowedOrigins : List String) (now : Int) (st : State)
    (w : World) (req : HttpReq) : Out :=
  if req.path ≠ "/mcp" then
    ⟨404, .plainText "Not Found", none, none, st, w⟩
  else if !validateOrigin allowedOrigins req.origin then
    ⟨403, .plainText "Forbidden - Origin not allowed", none, none, st, w⟩
  else
    let session := req.sessionId.bind (alookup st.sessions)
    if req.httpMethod == "POST" then
      let (p, hdr) := handlePost now st session req.accept req.body
      ⟨p.status, p.body, p.sseRun, hdr, p.state, w⟩
    else if req.httpMethod == "GET" then
      let (status, body, st2) := handleGet now st session req.accept
      ⟨status, body, none, none, st2, w⟩
    else if req.httpMethod == "DELETE" then
      let d := handleDelete st w req.sessionId
      ⟨d.status, d.body, none, none, d.state, d.world⟩
    else ⟨405, .plainText "Method Not Allowed", none, none, st, w⟩

end YT

namespace HT

/-- State of the transport in `http-transport.ts:58`: the delegated
`SessionManager`, the `sseTransports` map (by session id), and the fresh
name supply standing in for randomness. -/
structure State where
  sm : SM.State
  sse : List String
  nextFresh : Nat
deriving DecidableEq, Repr

/-- Fresh session ids handed to `SessionManager.createSession`. -/
def freshId (st : State) : String := "ht" ++ toString st.nextFresh

/-- `isOriginAllowed` (`http-transport.ts:411`): empty list allows all;
otherwise exact match, a `*` entry, or an entry ending in `*` whose
remainder is an initial segment of the origin. -/
def isOriginAllowed (allowedOrigins : List String) (origin : String) : Bool :=
  if allowedOrigins.length = 0 then true
  else
    allowedOrigins.any fun allowed =>
      allowed == "*" || origin == allowed ||
        (strEnds allowed "*" && strStarts origin (strDropLast allowed))

/-- `setCorsHeaders` (`http-transport.ts:383`): the value given to
`Access-Control-Allow-Origin`, when any. -/
def corsAllowOrigin (allowedOrigins : List String) (origin : Option String) :
    Option String :=
  match origin with
  | some o =>
      if isOriginAllowed allowedOrigins o then some o
      else if allowedOrigins.length = 0 then some "*"
      else none
  | none => if allowedOrigins.length = 0 then some "*" else none

/-- The outcome of one exchange of this transport. -/
structure Out where
  status : Nat
  body : ReplyBody
  state : State
  world : World
deriving DecidableEq, Repr

/-- `handlePostRequest` (`http-transport.ts:206`): Content-Type check
(415), parse check (400), normalization, session creation when an
`initialize` request arrives with no session, the session-required check
(401), lazy creation of the per-session `SSEServerTransport` (built on
this very POST response), forwarding of every request/notification
through it, and a uniform 202 with a `status`/`sessionId` JSON body. -/
def handlePost (now : Int) (st : State) (w : World) (session : Option SessionRec)
    (contentType : String) (body : Option JsBody) : Out :=
  if !(strIncludes contentType "application/json") then
    ⟨415, .plainText "Unsupported Media Type", st, w⟩
  else
    match body with
    | none => ⟨400, .errJson "Invalid JSON", st, w⟩
    | some b =>
      let msgs := jsElems b
      let isInitReq := msgs.any fun m => isJsonRpcRequest m && m.method == some "initialize"
      let created : Option SessionRec × State :=
        if isInitReq && session.isNone then
          let (s, sm2) := SM.createSession st.sm (freshId st) now
          (some s, { st with sm := sm2, nextFresh := st.nextFresh + 1 })
        else (session, st)
      match created.1 with
      | none => ⟨401, .errJson "No valid session. Send an initialize request first.", created.2, w⟩
      | some s =>
          let st3 :=
            if created.2.sse.contains s.sid then created.2
            else { created.2 with sse := created.2.sse ++ [s.sid] }
          ⟨202, .acceptedJson s.sid, st3, w⟩

/-- `handleGetRequest` (`http-transport.ts:297`): a session is required
(401); otherwise the SSE headers are written and the per-session
transport is created if missing. -/
def handleGet (st : State) (w : World) (session : Option SessionRec) : Out :=
  match session with
  | none => ⟨401, .errJson "No valid session. Send an initialize request first.", st, w⟩
  | some s =>
      let st2 :=
        if st.sse.contains s.sid then st
        else { st with sse := st.sse ++ [s.sid] }
      ⟨200, .sseStream, st2, w⟩

/-- `handleDeleteRequest` (`http-transport.ts:345`): a session id is
required (400); the per-session SSE transport, if any, is closed and
dropped; then `SessionManager.deleteSession` decides between 200 and
404. -/
def handleDelete (st : State) (w : World) (sessionId : Option String) : Out :=
  match sessionId with
  | none => ⟨400, .errJson "Session ID is required for DELETE requests", st, w⟩
  | some sid =>
      let st2 := { st with sse := st.sse.filter fun x => decide (x ≠ sid) }
      let (ok, sm2, w2) := SM.deleteSession st2.sm w sid
      if ok then ⟨200, .statusJson "session terminated", { st2 with sm := sm2 }, w2⟩
      else ⟨404, .errJson "Session not found", { st2 with sm := sm2 }, w2⟩

/-- One inbound HTTP exchange of this transport; the session id travels
in the `sessionId` query parameter. -/
structure HttpReq where
  path : String
  httpMethod : String
  origin : Option String
  sessionId : Option String
  contentType : String
  body : Option JsBody
deriving DecidableEq, Repr

/-- The verb dispatch at the end of `handleRequest`
(`http-transport.ts:179`). -/
def route (now : Int) (st : State) (w : World) (req : HttpReq)
    (session : Option SessionRec) : Out :=
  if req.httpMethod == "POST" then handlePost now st w session req.contentType req.body
  else if req.httpMethod == "GET" then handleGet st w session
  else if req.httpMethod == "DELETE" then handleDelete st w req.sessionId
  else ⟨405, .plainText "Method Not Allowed", st, w⟩

/-- `handleRequest` (`http-transport.ts:144`): OPTIONS preflight (204),
endpoint check (404), then — when a `sessionId` query parameter is
present — the `isSessionValid` guard (401 on failure, with its lazy
deletion side effect) followed by the touching `getSession`, and finally
the verb dispatch.  Origin never gates a request here; `setCorsHeaders`
only chooses response headers. -/
def handleRequest (now : Int) (st : State) (w : World) (req : HttpReq) : Out :=
  if req.httpMethod == "OPTIONS" then ⟨204, .empty, st, w⟩
  else if !(strStarts req.path "/mcp") then ⟨404, .plainText "Not Found", st, w⟩
  else
    match req.sessionId with
    | some sid =>
        let v := SM.isSessionValid st.sm sid now
        let st2 := { st with sm := v.2 }
        if !v.1 then ⟨401, .errJson "Invalid or expired session", st2, w⟩
        else
          let g := SM.getSession st2.sm sid now
          route now { st2 with sm := g.2 } w req g.1
    | none => route now st w req none

end HT

namespace TS

/-- The result object the test server (`test-server.js`) pushes for one
envelope: it branches on `msg.method` directly, with no classifier, so
every envelope — notifications included — yields exactly one entry. -/
def replyFor (m : RpcMsg) : RpcReply :=
  match m.method with
  | some "initialize" => ⟨m.rpcIdOf, .ok .initResult⟩
  | some "listTools" => ⟨m.rpcIdOf, .ok .toolsList⟩
  | some "callTool" =>
      let toolName := m.params.bind RpcParams.name
      if toolName == some "query_domain_knowledge"
          && (m.params.map RpcParams.hasQuery).getD false then
        ⟨m.rpcIdOf, .ok .callToolOutput⟩
      else
        ⟨m.rpcIdOf, .err methodNotFoundCode
          ("Tool not found or invalid arguments: " ++ toolName.getD "undefined")⟩
  | other => ⟨m.rpcIdOf, .err methodNotFoundCode
      ("Method not found: " ++ other.getD "undefined")⟩

/-- The test server's POST reply: one result per envelope, unwrapped to a
bare object exactly when one result was produced and the original parsed
body (`parsed.data`) was not an array.  (The session-map insertion and
`Mcp-Session-Id` response header that `initialize` envelopes additionally
trigger do not influence the reply body and are not modelled.) -/
def handlePostBody (body : JsBody) : Nat × ReplyBody :=
  let results := (jsElems body).map replyFor
  match results, jsIsArray body with
  | [r], false => (200, .jsonSingle r)
  | rs, _ => (200, .jsonBatch rs)

end TS

/-! ### Concrete states and exchanges used to instantiate the theorems. -/

/-- A session record with no registered stream. -/
def recS : SessionRec := ⟨"s", 0, 0, []⟩

/-- A session record with one registered stream handle. -/
def recStream : SessionRec := ⟨"s", 0, 0, ["st1"]⟩

/-- A session store holding `recS`, with a one-second timeout. -/
def smEx : SM.State := ⟨1000, [("s", recS)]⟩

/-- A session store holding `recStream`. -/
def smExStream : SM.State := ⟨1000, [("s", recStream)]⟩

/-- A world with the single, still-open sink `st1`. -/
def w0 : World := ⟨[("st1", false)]⟩

/-- The yitam-tools transport with no session. -/
def ytEmpty : YT.State := ⟨[], 0, 0⟩

/-- The yitam-tools transport holding `recStream`. -/
def ytEx : YT.State := ⟨[("s", recStream)], 0, 0⟩

/-- The http-transport holding `recS` in its `SessionManager`. -/
def htEx : HT.State := ⟨smEx, [], 0⟩

/-- The http-transport with an empty `SessionManager`. -/
def htEmpty : HT.State := ⟨⟨1000, []⟩, [], 0⟩

/-- A `listTools` request with id 1. -/
def listToolsReq : RpcMsg := ⟨some "listTools", some (some (.num 1)), false, false, none⟩

/-- A `callTool` request with id 1 and valid arguments. -/
def callToolReq : RpcMsg :=
  ⟨some "callTool", some (some (.num 1)), false, false, some ⟨some "query_domain_knowledge", true⟩⟩

/-- A notification (no id member). -/
def notifMsg : RpcMsg := ⟨some "progress", none, false, false, none⟩

/-- A non-well-formed object with `method`, a numeric `id`, and a
`result` member. -/
def hybridMsg : RpcMsg := ⟨some "m", some (some (.num 1)), true, false, none⟩

/-- A well-formed request envelope. -/
def wfReq : RpcMsg := ⟨some "listTools", some (some (.num 1)), false, false, none⟩

/-- The reply `invokeServerMethod` produces for `listToolsReq`. -/
def replyTools : RpcReply := ⟨some (.num 1), .ok .toolsList⟩

/-- The outcome of POSTing the one-element batch `[listToolsReq]` with
`Accept: text/event-stream` to the yitam-tools transport with the session
`recStream` bound. -/
def outC1 : YT.PostOut :=
  (YT.handlePost 0 ytEx (some recStream) "text/event-stream" (some (.arr [listToolsReq]))).1

/-- The state of the POST-scoped SSE stream after `handlePostWithSSE`
returns in the `outC1` exchange. -/
def runC1 : YT.SseRun := ⟨"stream-id0", [RpcId.num 1], [], false, true, true⟩

/-- A DELETE exchange for session id `sid` on the http-transport. -/
def htDeleteReq (sid : String) : HT.HttpReq := ⟨"/mcp", "DELETE", none, some sid, "", none⟩

/-- A POST exchange carrying the notification batch to the http-transport
under session id `s`. -/
def htNotifPost : HT.HttpReq :=
  ⟨"/mcp", "POST", none, some "s", "application/json", some (.arr [notifMsg])⟩

/-- A POST to the yitam-tools transport from an origin that matches the
allow-list entry `https://a.*` only in the prefix-wildcard sense. -/
def reqC6 : YT.HttpReq :=
  ⟨"/mcp", "POST", some "https://a.test", none, "application/json", some (.arr [])⟩

/-! ### Helper lemmas about the association-list operations. -/

theorem alookup_aerase {α : Type} (l : List (String × α)) (k : String) :
    alookup (aerase l k) k = none := by
  induction l with
  | nil => rfl
  | cons p t ih =>
      by_cases h : p.1 = k
      · simpa [aerase, List.filter_cons, h] using ih
      · simpa [aerase, List.filter_cons, h, alookup] using ih

theorem alookup_aset {α : Type} (l : List (String × α)) (k : String) (v : α) :
    alookup (aset l k v) k = some v := by
  induction l with
  | nil => simp [aset, alookup]
  | cons p t ih =>
      by_cases h : p.1 = k
      · simp [aset, h, alookup]
      · simp [aset, h, alookup, ih]

theorem notif_not_request (m : RpcMsg) :
    isJsonRpcNotification m = true → isJsonRpcRequest m = false := by
  rcases m with ⟨mm, mid, hr, he, p⟩
  rcases mid with _ | mi
  · simp [isJsonRpcNotification, isJsonRpcRequest]
  · rcases mi with _ | i <;> simp [isJsonRpcNotification, isJsonRpcRequest]

/-- `C7`: for a present but expired record, `isSessionValid` deletes it as
a side effect and reports `false`, after which `getSession` on the same id
returns absent; a present non-expired record is reported `true` with the
store untouched. -/
theorem c7_isSessionValid_lazy_expiry (st : SM.State) (sid : String) (now : Int)
    (r : SessionRec) (h : alookup st.sessions sid = some r) :
    (now - r.lastAccessed > st.timeoutMs →
       SM.isSessionValid st sid now =
         (false, { st with sessions := aerase st.sessions sid })
       ∧ ∀ now2 : Int,
           (SM.getSession { st with sessions := aerase st.sessions sid } sid now2).1 = none)
    ∧ (now - r.lastAccessed ≤ st.timeoutMs →
       SM.isSessionValid st sid now = (true, st)) := by
  constructor
  · intro hexp
    constructor
    · simp [SM.isSessionValid, h, hexp]
    · intro now2
      simp [SM.getSession, alookup_aerase]
  · intro hok
    simp [SM.isSessionValid, h, not_lt.mpr hok]

theorem c7_isSessionValid_lazy_expiry_witness :
    SM.isSessionValid smEx "s" 2000 =
      (false, { smEx with sessions := aerase smEx.sessions "s" })
    ∧ (SM.getSession { smEx with sessions := aerase smEx.sessions "s" } "s" 2500).1 = none
    ∧ SM.isSessionValid smEx "s" 500 = (true, smEx) := by
  refine ⟨?_, ?_, ?_⟩
  · exact ((c7_isSessionValid_lazy_expiry smEx "s" 2000 recS rfl).1 (by decide)).1
  · exact ((c7_isSessionValid_lazy_expiry smEx "s" 2000 recS rfl).1 (by decide)).2 2500
  · exact (c7_isSessionValid_lazy_expiry smEx "s" 500 recS rfl).2 (by decide)

/-- `C10`: `getSession` performs no expiry check of its own: on a present
but already-expired record it still returns the record and resets
`lastAccessed` to `now`, after which the session is reported valid by
`isSessionValid` for a full timeout period. -/
theorem c10_getSession_revives_expired (st : SM.State) (sid : String) (now : Int)
    (r : SessionRec) (h : alookup st.sessions sid = some r)
    (_hexp : now - r.lastAccessed > st.timeoutMs) :
    SM.getSession st sid now =
      (some { r with lastAccessed := now },
       { st with sessions := aset st.sessions sid { r with lastAccessed := now } })
    ∧ ∀ now2 : Int, now2 - now ≤ st.timeoutMs →
        (SM.isSessionValid
          { st with sessions := aset st.sessions sid { r with lastAccessed := now } }
          sid now2).1 = true := by
  constructor
  · simp [SM.getSession, h]
  · intro now2 h2
    simp [SM.isSessionValid, alookup_aset, not_lt.mpr h2]

theorem c10_getSession_revives_expired_witness :
    SM.getSession smEx "s" 2000 =
      (some { recS with lastAccessed := 2000 },
       { smEx with sessions := aset smEx.sessions "s" { recS with lastAccessed := 2000 } })
    ∧ (SM.isSessionValid
        { smEx with sessions := aset smEx.sessions "s" { recS with lastAccessed := 2000 } }
        "s" 2500).1 = true := by
  have h := c10_getSession_revives_expired smEx "s" 2000 recS rfl (by decide)
  exact ⟨h.1, h.2 2500 (by decide)⟩

/-- `C8` counterexample: `deleteSession` on a session with the open
registered stream `st1` removes the record and returns `true`, yet the
sink `st1` is still open afterwards — the store's delete closes nothing,
so deletion through it does leave a registered stream sink open. -/
theorem c8_counterexample_delete_leaves_stream_open :
    (SM.deleteSession smExStream w0 "s").1 = true
    ∧ alookup (SM.deleteSession smExStream w0 "s").2.1.sessions "s" = none
    ∧ recStream.requestStreams = ["st1"]
    ∧ alookup (SM.deleteSession smExStream w0 "s").2.2.streams "st1" = some false := by
  decide

/-- `C8` amended: `deleteSession` removes the record and returns `true`
exactly when one existed, but it touches no stream; closing every
registered stream before removal is done by its callers — the yitam-tools
transport's DELETE handler ends each registered sink and only then
removes the record. -/
theorem c8_amended_delete_behavior (st : SM.State) (w : World) (sid : String) :
    ((SM.deleteSession st w sid).1 = (alookup st.sessions sid).isSome
      ∧ (SM.deleteSession st w sid).2.1 = { st with sessions := aerase st.sessions sid }
      ∧ (SM.deleteSession st w sid).2.2 = w)
    ∧ (∀ (yst : YT.State) (r : SessionRec), alookup yst.sessions sid = some r →
        YT.handleDelete yst w (some sid) =
          ⟨204, .empty, { yst with sessions := aerase yst.sessions sid },
           endStreams w r.requestStreams⟩) := by
  refine ⟨⟨rfl, rfl, rfl⟩, ?_⟩
  intro yst r h
  simp [YT.handleDelete, h]

theorem c8_amended_delete_behavior_witness :
    (SM.deleteSession smExStream w0 "s").1 = (alookup smExStream.sessions "s").isSome
    ∧ YT.handleDelete ytEx w0 (some "s") =
        ⟨204, .empty, { ytEx with sessions := aerase ytEx.sessions "s" },
         endStreams w0 recStream.requestStreams⟩ :=
  ⟨(c8_amended_delete_behavior smExStream w0 "s").1.1,
   (c8_amended_delete_behavior smExStream w0 "s").2 ytEx recStream rfl⟩

/-- `C5` counterexample: on the decoded object `hybridMsg` (it has
`method`, a numeric `id`, and a `result` member) both `isJsonRpcRequest`
and `isJsonRpcResponse` hold, because the implemented `isJsonRpcResponse`
does not exclude `method` — so the three predicates are not mutually
exclusive over all decoded JSON objects. -/
theorem c5_counterexample_request_response_overlap :
    isJsonRpcRequest hybridMsg = true ∧ isJsonRpcResponse hybridMsg = true := by
  decide

/-- `C5` amended: `isJsonRpcRequest` and `isJsonRpcNotification` are
mutually exclusive over all decoded objects, and over well-formed
envelopes exactly one of the three predicates holds; but the implemented
`isJsonRpcResponse` tests only for a `result` or `error` member, without
excluding `method`, so mutual exclusion fails on non-well-formed objects
that carry `method`, an id and a `result`. -/
theorem c5_amended_classifier_partition :
    (∀ m : RpcMsg, ¬(isJsonRpcRequest m = true ∧ isJsonRpcNotification m = true))
    ∧ (∀ m : RpcMsg, SpecWellFormed m = true →
        (isJsonRpcRequest m = true ∧ isJsonRpcNotification m = false
          ∧ isJsonRpcResponse m = false)
        ∨ (isJsonRpcRequest m = false ∧ isJsonRpcNotification m = true
          ∧ isJsonRpcResponse m = false)
        ∨ (isJsonRpcRequest m = false ∧ isJsonRpcNotification m = false
          ∧ isJsonRpcResponse m = true)) := by
  constructor
  · rintro ⟨mm, mid, hr, he, p⟩ ⟨h1, h2⟩
    rcases mid with _ | mi
    · simp [isJsonRpcRequest] at h1
    · rcases mi with _ | i
      · simp [isJsonRpcRequest] at h1
      · simp [isJsonRpcNotification] at h2
  · rintro ⟨mm, mid, hr, he, p⟩ hwf
    rcases mm with _ | ms
    · rcases hr <;> rcases he <;>
        simp_all [SpecWellFormed, isJsonRpcRequest, isJsonRpcNotification, isJsonRpcResponse]
    · rcases mid with _ | mi
      · rcases hr <;> rcases he <;>
          simp_all [SpecWellFormed, isJsonRpcRequest, isJsonRpcNotification, isJsonRpcResponse]
      · rcases mi with _ | i <;> rcases hr <;> rcases he <;>
          simp_all [SpecWellFormed, isJsonRpcRequest, isJsonRpcNotification, isJsonRpcResponse]

theorem c5_amended_classifier_partition_witness :
    ¬(isJsonRpcRequest wfReq = true ∧ isJsonRpcNotification wfReq = true)
    ∧ ((isJsonRpcRequest wfReq = true ∧ isJsonRpcNotification wfReq = false
          ∧ isJsonRpcResponse wfReq = false)
        ∨ (isJsonRpcRequest wfReq = false ∧ isJsonRpcNotification wfReq = true
          ∧ isJsonRpcResponse wfReq = false)
        ∨ (isJsonRpcRequest wfReq = false ∧ isJsonRpcNotification wfReq = false
          ∧ isJsonRpcResponse wfReq = true)) :=
  ⟨c5_amended_classifier_partition.1 wfReq,
   c5_amended_classifier_partition.2 wfReq (by decide)⟩

/-! ### Helper lemmas about the http-transport status codes. -/

theorem ht_handlePost_ne_403 (now : Int) (st : HT.State) (w : World)
    (session : Option SessionRec) (ct : String) (body : Option JsBody) :
    (HT.handlePost now st w session ct body).status ≠ 403 := by
  unfold HT.handlePost
  split
  · simp
  · split
    · simp
    · next b =>
      rcases session with _ | s
      · cases hI : (jsElems b).any (fun m => isJsonRpcRequest m && m.method == some "initialize") <;>
          simp [hI]
      · simp

theorem ht_handleGet_ne_403 (st : HT.State) (w : World) (session : Option SessionRec) :
    (HT.handleGet st w session).status ≠ 403 := by
  unfold HT.handleGet
  repeat' split
  all_goals simp

theorem ht_handleDelete_ne_403 (st : HT.State) (w : World) (sessionId : Option String) :
    (HT.handleDelete st w sessionId).status ≠ 403 := by
  unfold HT.handleDelete
  dsimp only [SM.deleteSession]
  repeat' split
  all_goals simp

theorem ht_route_ne_403 (now : Int) (st : HT.State) (w : World) (req : HT.HttpReq)
    (session : Option SessionRec) :
    (HT.route now st w req session).status ≠ 403 := by
  unfold HT.route
  split
  · apply ht_handlePost_ne_403
  · split
    · apply ht_handleGet_ne_403
    · split
      · apply ht_handleDelete_ne_403
      · simp

theorem ht_handleRequest_ne_403 (now : Int) (st : HT.State) (w : World)
    (req : HT.HttpReq) :
    (HT.handleRequest now st w req).status ≠ 403 := by
  unfold HT.handleRequest
  split
  · simp
  · split
    · simp
    · split
      · dsimp only
        split
        · simp
        · apply ht_route_ne_403
      · apply ht_route_ne_403

/-- `C6` counterexample: with the allow-list `["https://a.*"]`, the origin
`https://a.test` is a prefix-wildcard match (as `isOriginAllowed` of the
secondary transport shows), yet the main transport's `validateOrigin`
rejects it and the request is answered 403 instead of proceeding. -/
theorem c6_counterexample_wildcard_origin_rejected :
    HT.isOriginAllowed ["https://a.*"] "https://a.test" = true
    ∧ YT.validateOrigin ["https://a.*"] (some "https://a.test") = false
    ∧ (YT.handleRequest ["https://a.*"] 0 ytEmpty w0 reqC6).status = 403 := by
  decide

/-- `C6` amended: in the main transport a request with no Origin is always
allowed, an empty allow-list allows any origin, a present Origin is
allowed exactly on a case-sensitive exact match or a `*` entry (there is
no prefix-wildcard support), and a mismatch is answered 403; the
secondary transport's `isOriginAllowed` additionally honours
prefix-wildcard entries, but that transport never answers 403 — origin
only influences its CORS response headers. -/
theorem c6_amended_origin_validation :
    (∀ origins : List String, YT.validateOrigin origins none = true)
    ∧ (∀ o : String, YT.validateOrigin [] (some o) = true)
    ∧ (∀ (origins : List String) (o : String),
        YT.validateOrigin origins (some o) = true ↔
          origins = [] ∨ ∃ a ∈ origins, a = "*" ∨ o = a)
    ∧ (∀ (origins : List String) (now : Int) (st : YT.State) (w : World)
        (req : YT.HttpReq),
        req.path = "/mcp" → YT.validateOrigin origins req.origin = false →
        (YT.handleRequest origins now st w req).status = 403)
    ∧ (∀ (now : Int) (st : HT.State) (w : World) (req : HT.HttpReq),
        (HT.handleRequest now st w req).status ≠ 403) := by
  refine ⟨?_, ?_, ?_, ?_, ?_⟩
  · intro origins
    unfold YT.validateOrigin
    split <;> rfl
  · intro o
    rfl
  · intro origins o
    unfold YT.validateOrigin
    rcases origins with _ | ⟨a, t⟩
    · simp
    · simp [List.any_eq_true]
  · intro origins now st w req hpath horigin
    unfold YT.handleRequest
    simp [hpath, horigin]
  · exact ht_handleRequest_ne_403

theorem c6_amended_origin_validation_witness :
    (YT.handleRequest ["https://only.example"] 0 ytEmpty w0
        { reqC6 with origin := some "https://evil.example" }).status = 403 :=
  c6_amended_origin_validation.2.2.2.1 ["https://only.example"] 0 ytEmpty w0
    { reqC6 with origin := some "https://evil.example" } rfl (by decide)

/-- `C9` counterexample: on the secondary transport, deleting the same
existing session id twice gives 200 and then 401 (from the
session-validity guard in `handleRequest`), not the claimed 404. -/
theorem c9_counterexample_second_delete_gets_401 :
    (HT.handleRequest 0 htEx w0 (htDeleteReq "s")).status = 200
    ∧ (HT.handleRequest 0 (HT.handleRequest 0 htEx w0 (htDeleteReq "s")).state w0
        (htDeleteReq "s")).status = 401
    ∧ (HT.handleRequest 0 (HT.handleRequest 0 htEx w0 (htDeleteReq "s")).state w0
        (htDeleteReq "s")).status ≠ 404 := by
  decide

/-- `C9` amended: on the main transport, DELETE on an existing session id
answers 204 and removes the record, and every call once the id is absent
answers 404 leaving the state unchanged; on the secondary transport the
first DELETE on a valid session answers 200 and removes the record, but
later DELETEs answer 401 (invalid session), not 404. -/
theorem c9_amended_delete_idempotence :
    (∀ (st : YT.State) (w : World) (sid : String) (r : SessionRec),
        alookup st.sessions sid = some r →
        (YT.handleDelete st w (some sid)).status = 204
        ∧ alookup (YT.handleDelete st w (some sid)).state.sessions sid = none)
    ∧ (∀ (st : YT.State) (w : World) (sid : String),
        alookup st.sessions sid = none →
        (YT.handleDelete st w (some sid)).status = 404
        ∧ (YT.handleDelete st w (some sid)).state = st
        ∧ (YT.handleDelete st w (some sid)).world = w)
    ∧ (∀ (now : Int) (st : HT.State) (w : World) (sid : String) (r : SessionRec),
        alookup st.sm.sessions sid = some r →
        now - r.lastAccessed ≤ st.sm.timeoutMs →
        (HT.handleRequest now st w (htDeleteReq sid)).status = 200
        ∧ alookup (HT.handleRequest now st w (htDeleteReq sid)).state.sm.sessions sid = none)
    ∧ (∀ (now : Int) (st : HT.State) (w : World) (sid : String),
        alookup st.sm.sessions sid = none →
        (HT.handleRequest now st w (htDeleteReq sid)).status = 401) := by
  refine ⟨?_, ?_, ?_, ?_⟩
  · intro st w sid r h
    constructor
    · simp [YT.handleDelete, h]
    · simp [YT.handleDelete, h, alookup_aerase]
  · intro st w sid h
    refine ⟨?_, ?_, ?_⟩ <;> simp [YT.handleDelete, h]
  · intro now st w sid r h hle
    have hd : (("DELETE" : String) == "OPTIONS") = false := by decide
    have hp : strStarts "/mcp" "/mcp" = true := by decide
    have hpost : (("DELETE" : String) == "POST") = false := by decide
    have hget : (("DELETE" : String) == "GET") = false := by decide
    have hdel : (("DELETE" : String) == "DELETE") = true := by decide
    constructor <;>
      simp [HT.handleRequest, htDeleteReq, hd, hp, hpost, hget, hdel,
        SM.isSessionValid, h, not_lt.mpr hle, SM.getSession, HT.route,
        HT.handleDelete, SM.deleteSession, alookup_aset, alookup_aerase]
  · intro now st w sid h
    have hd : (("DELETE" : String) == "OPTIONS") = false := by decide
    have hp : strStarts "/mcp" "/mcp" = true := by decide
    simp [HT.handleRequest, htDeleteReq, hd, hp, SM.isSessionValid, h]

theorem c9_amended_delete_idempotence_witness :
    ((YT.handleDelete ytEx w0 (some "s")).status = 204
      ∧ alookup (YT.handleDelete ytEx w0 (some "s")).state.sessions "s" = none)
    ∧ ((YT.handleDelete ytEmpty w0 (some "s")).status = 404
      ∧ (YT.handleDelete ytEmpty w0 (some "s")).state = ytEmpty
      ∧ (YT.handleDelete ytEmpty w0 (some "s")).world = w0)
    ∧ ((HT.handleRequest 0 htEx w0 (htDeleteReq "s")).status = 200
      ∧ alookup (HT.handleRequest 0 htEx w0 (htDeleteReq "s")).state.sm.sessions "s" = none)
    ∧ (HT.handleRequest 0 htEmpty w0 (htDeleteReq "s")).status = 401 :=
  ⟨c9_amended_delete_idempotence.1 ytEx w0 "s" recStream rfl,
   c9_amended_delete_idempotence.2.1 ytEmpty w0 "s" rfl,
   c9_amended_delete_idempotence.2.2.1 0 htEx w0 "s" recS rfl (by decide),
   c9_amended_delete_idempotence.2.2.2 0 htEmpty w0 "s" rfl⟩

/-- `C3` counterexample: a POST batch with one `callTool` Request, no
session and no `initialize` is answered 400 by the main transport, not
the claimed 401. -/
theorem c3_counterexample_session_required_is_400 :
    (YT.handlePost 0 ytEmpty none "application/json" (some (.arr [callToolReq]))).1.status = 400
    ∧ (YT.handlePost 0 ytEmpty none "application/json"
        (some (.arr [callToolReq]))).1.status ≠ 401 := by
  decide

/-- `C3` amended: when a POST batch contains at least one true Request, no
`initialize` request, and no session is resolvable, the main transport
answers 400 with a JSON-RPC InvalidRequest envelope (`Session required
for non-initialize requests`); the secondary transport answers 401. -/
theorem c3_amended_session_required_status :
    (∀ (now : Int) (st : YT.State) (accept : String) (msgs : List RpcMsg),
        (strIncludes accept "application/json"
          || strIncludes accept "text/event-stream") = true →
        msgs.any isJsonRpcRequest = true →
        (msgs.any fun m => isJsonRpcRequest m && m.method == some "initialize") = false →
        (YT.handlePost now st none accept (some (.arr msgs))).1 =
          ⟨400, .rpcError invalidRequestCode "Session required for non-initialize requests",
           none, st⟩)
    ∧ (∀ (now : Int) (st : HT.State) (w : World) (ct : String) (msgs : List RpcMsg),
        strIncludes ct "application/json" = true →
        (msgs.any fun m => isJsonRpcRequest m && m.method == some "initialize") = false →
        HT.handlePost now st w none ct (some (.arr msgs)) =
          ⟨401, .errJson "No valid session. Send an initialize request first.", st, w⟩) := by
  constructor
  · intro now st accept msgs hAcc hAny hInit
    unfold YT.handlePost
    simp [hAcc, jsElems, hAny, hInit]
  · intro now st w ct msgs hCT hInit
    unfold HT.handlePost
    simp [hCT, jsElems, hInit]

theorem c3_amended_session_required_status_witness :
    (YT.handlePost 0 ytEmpty none "application/json" (some (.arr [callToolReq]))).1 =
      ⟨400, .rpcError invalidRequestCode "Session required for non-initialize requests",
       none, ytEmpty⟩
    ∧ HT.handlePost 0 htEmpty w0 none "application/json" (some (.arr [callToolReq])) =
      ⟨401, .errJson "No valid session. Send an initialize request first.", htEmpty, w0⟩ :=
  ⟨c3_amended_session_required_status.1 0 ytEmpty "application/json" [callToolReq]
      (by decide) (by decide) (by decide),
   c3_amended_session_required_status.2 0 htEmpty w0 "application/json" [callToolReq]
      (by decide) (by decide)⟩

/-! ### Helper lemmas about batches that contain only notifications. -/

theorem list_any_req_false (msgs : List RpcMsg)
    (h : msgs.all isJsonRpcNotification = true) :
    msgs.any isJsonRpcRequest = false := by
  cases hq : msgs.any isJsonRpcRequest
  · rfl
  · exfalso
    obtain ⟨m, hm, hr⟩ := List.any_eq_true.mp hq
    have hn := List.all_eq_true.mp h m hm
    rw [notif_not_request m hn] at hr
    exact Bool.false_ne_true hr

theorem list_any_init_false (msgs : List RpcMsg)
    (h : msgs.all isJsonRpcNotification = true) :
    (msgs.any fun m => isJsonRpcRequest m && m.method == some "initialize") = false := by
  cases hq : msgs.any fun m => isJsonRpcRequest m && m.method == some "initialize"
  · rfl
  · exfalso
    obtain ⟨m, hm, hr⟩ := List.any_eq_true.mp hq
    have hn := List.all_eq_true.mp h m hm
    rw [notif_not_request m hn] at hr
    simp at hr

theorem list_all_notif_or_resp (msgs : List RpcMsg)
    (h : msgs.all isJsonRpcNotification = true) :
    msgs.all (fun m => isJsonRpcNotification m || isJsonRpcResponse m) = true := by
  rw [List.all_eq_true] at h ⊢
  intro m hm
  simp [h m hm]

/-- `C4` counterexample: on the secondary transport a POST batch of one
Notification under a valid session is answered 202, but with the JSON
body `{status, sessionId}` — not an empty body (and the exchange also
registers a session-wide SSE transport built on this very POST). -/
theorem c4_counterexample_ht_notification_post_body_not_empty :
    (HT.handleRequest 0 htEx w0 htNotifPost).status = 202
    ∧ (HT.handleRequest 0 htEx w0 htNotifPost).body = ReplyBody.acceptedJson "s"
    ∧ (HT.handleRequest 0 htEx w0 htNotifPost).body ≠ ReplyBody.empty
    ∧ (HT.handleRequest 0 htEx w0 htNotifPost).state.sse = ["s"] := by
  decide

/-- `C4` amended: on the main transport every POST batch consisting
solely of Notifications is answered 202 with an empty body, no SSE reply
stream is opened and the state is untouched; on the secondary transport
such a batch (with a resolvable session) is also answered 202, but with
the `{status, sessionId}` JSON body, and a per-session SSE transport is
registered if missing. -/
theorem c4_amended_notification_batches :
    (∀ (now : Int) (st : YT.State) (session : Option SessionRec) (accept : String)
        (msgs : List RpcMsg),
        (strIncludes accept "application/json"
          || strIncludes accept "text/event-stream") = true →
        msgs.all isJsonRpcNotification = true →
        (YT.handlePost now st session accept (some (.arr msgs))).1 =
          ⟨202, .empty, none, st⟩)
    ∧ (∀ (now : Int) (st : HT.State) (w : World) (s : SessionRec) (ct : String)
        (msgs : List RpcMsg),
        strIncludes ct "application/json" = true →
        msgs.all isJsonRpcNotification = true →
        HT.handlePost now st w (some s) ct (some (.arr msgs)) =
          ⟨202, .acceptedJson s.sid,
           if st.sse.contains s.sid then st else { st with sse := st.sse ++ [s.sid] },
           w⟩) := by
  constructor
  · intro now st session accept msgs hAcc hAll
    unfold YT.handlePost
    simp [hAcc, jsElems, list_any_req_false msgs hAll, list_any_init_false msgs hAll,
      list_all_notif_or_resp msgs hAll]
  · intro now st w s ct msgs hCT hAll
    unfold HT.handlePost
    simp [hCT, jsElems]

theorem c4_amended_notification_batches_witness :
    (YT.handlePost 0 ytEx (some recStream) "application/json" (some (.arr [notifMsg]))).1 =
      ⟨202, .empty, none, ytEx⟩
    ∧ HT.handlePost 0 htEx w0 (some recS) "application/json" (some (.arr [notifMsg])) =
      ⟨202, .acceptedJson recS.sid,
       if htEx.sse.contains recS.sid then htEx else { htEx with sse := htEx.sse ++ [recS.sid] },
       w0⟩ :=
  ⟨c4_amended_notification_batches.1 0 ytEx (some recStream) "application/json" [notifMsg]
      (by decide) (by decide),
   c4_amended_notification_batches.2 0 htEx w0 recS "application/json" [notifMsg]
      (by decide) (by decide)⟩

/-- `C2`: a POST whose body is the bare (non-array) object `listToolsReq`
is answered by the main transport with a one-element JSON *array*, not a
bare object: `handlePostRequest` passes the already-normalized list to
`handlePostWithJson`, whose `Array.isArray` test therefore always sees an
array, making the unwrap branch unreachable — no input ever yields a bare
object reply.  The repository's own test server, which tests
`Array.isArray` on the original parsed body, replies with a bare object at
the same input. -/
theorem c2_bare_object_request_gets_array_reply :
    (YT.handlePost 0 ytEx (some recStream) "application/json"
        (some (.single listToolsReq))).1.status = 200
    ∧ (YT.handlePost 0 ytEx (some recStream) "application/json"
        (some (.single listToolsReq))).1.body = ReplyBody.jsonBatch [replyTools]
    ∧ (∀ (st : YT.State) (msgs : List RpcMsg) (r : RpcReply),
        (YT.handlePostWithJson st (.arr msgs)).body ≠ ReplyBody.jsonSingle r)
    ∧ TS.handlePostBody (.single listToolsReq) = (200, ReplyBody.jsonSingle replyTools) := by
  refine ⟨by decide, by decide, ?_, by decide⟩
  intro st msgs r
  unfold YT.handlePostWithJson
  dsimp only [jsElems, jsIsArray]
  split
  · simp
  · generalize msgs.filterMap YT.processMessageWithServer = rs
    rcases rs with _ | ⟨a, t⟩
    · simp
    · rcases t with _ | ⟨b2, u⟩ <;> simp

/-- `C1`: POSTing the batch `[listToolsReq]` with
`Accept: text/event-stream` under the bound session: the stream is opened
and registered and the expected id is tracked, and dispatch does produce
the response — but the response is emitted before the response listener
is subscribed, so after `handlePostWithSSE` returns no SSE event has been
written, the id is still pending, and the stream is neither closed nor
deregistered.  The same response delivered once the listener is on (the
final conjunct) would be written as one counter-keyed event and would
close and deregister the stream, which shows the loss comes from the
emission/subscription ordering alone. -/
theorem c1_sse_responses_emitted_before_listener :
    outC1.status = 200
    ∧ outC1.sseRun = some runC1
    ∧ YT.processMessageWithServer listToolsReq = some replyTools
    ∧ runC1.events = [] ∧ runC1.closed = false ∧ runC1.registered = true
    ∧ runC1.pendingIds = [RpcId.num 1] ∧ runC1.listenerOn = true
    ∧ alookup outC1.state.sessions "s" =
        some { recStream with requestStreams := ["st1", "stream-id0"] }
    ∧ YT.emitResponse "s" ⟨runC1, 0⟩ "s" replyTools =
        ⟨⟨"stream-id0", [], [(1, replyTools)], true, false, false⟩, 1⟩ := by
  decide
